import Mathlib

/-!
Verification development for the shippo-frontend repository.

Shallow embedding of the multi-provider shipping layer:
the canonical data model (`lib/models.py`), the fan-out rate coordinator
(`api/rates.py`), the validate-endpoint provider selection
(`api/validate.py`), the label-history store (`api/history.py`) and the
four provider adapters (`lib/shippo_client.py`, `lib/easypost_client.py`,
`lib/shipengine_client.py`, `lib/easyship_client.py`).

Network and SDK calls are modelled as explicit outcome parameters; Python
exceptions are modelled with `Except`; Python dictionaries keyed by
provider name are modelled as association lists `List (String × _)`.
-/

namespace ShippoFrontend

/-- Canonical shipping address, from `lib/models.py` (`class Address`).
The pydantic defaults (`country = "US"`, `is_residential = True`) are kept
as field defaults; optional fields are `Option String`. -/
structure Address where
  name : String
  street1 : String
  street2 : Option String := none
  city : String
  state : String
  zip : String
  country : String := "US"
  phone : Option String := none
  email : Option String := none
  is_residential : Bool := true
deriving Repr, DecidableEq

/-- Address-validation outcome, from `lib/models.py` (`class ValidationResult`). -/
structure ValidationResult where
  is_valid : Bool
  messages : List String := []
  original_address : Address
  validated_address : Option Address := none
deriving Repr, DecidableEq

/-- Python truthiness of `os.environ.get(key)`: the variable counts as
configured exactly when it is set to a non-empty string. -/
def envTruthy (v : Option String) : Bool :=
  match v with
  | none => false
  | some s => s != ""

/-- Python `x or default` on an optional string: the left operand wins
exactly when it is set and non-empty. -/
def pyOr (v : Option String) (default : String) : String :=
  match v with
  | none => default
  | some s => if s = "" then default else s

/-! ## Fan-out coordinator (`api/rates.py`, `handler.do_POST`)

Each configured provider gets exactly one unit of work submitted to a
thread pool.  A unit either finishes with a rate payload, finishes by
raising, or is still unfinished when the coordinator's 9-second
`as_completed` deadline fires.  `as_completed` yields only *completed*
futures, so `future.result(timeout=8)` on a yielded future returns (or
re-raises the worker's own exception) immediately; the coordinator
deadline instead raises `TimeoutError` from the `as_completed` iterator
itself, outside the inner `try`, which aborts the whole collection loop. -/

/-- Outcome of one provider's unit of work, as observed by the collection
loop of `api/rates.py` lines 77-87.  `raisedTimeoutError` is a worker that
itself raised a `TimeoutError` (the only way the inner
`except TimeoutError` branch can run); `hang` is a worker still
unfinished when the 9-second `as_completed` deadline fires. -/
inductive FutureOutcome (α : Type) where
  | ok (rates : α)
  | raisedTimeoutError (msg : String)
  | exc (msg : String)
  | hang
deriving Repr, DecidableEq

/-- The entry `errors[provider]` receives for a completed unit, if any
(`api/rates.py` lines 80-87): `none` for a successful unit,
`"Request timed out"` when the worker raised a `TimeoutError`, and the
exception text otherwise. -/
def errEntry {α : Type} (o : FutureOutcome α) : Option String :=
  match o with
  | .ok _ => none
  | .raisedTimeoutError _ => some "Request timed out"
  | .exc m => some m
  | .hang => none

/-- The entry `results[provider]` receives for a completed unit, if any
(`api/rates.py` line 82). -/
def okEntry {α : Type} (o : FutureOutcome α) : Option α :=
  match o with
  | .ok r => some r
  | _ => none

/-- Is the unit still unfinished at the `as_completed` deadline? -/
def isHang {α : Type} (o : FutureOutcome α) : Bool :=
  match o with
  | .hang => true
  | _ => false

/-- The `results` map built by the collection loop over the completed
units (`api/rates.py` line 82). -/
def collectOk {α : Type} (units : List (String × FutureOutcome α)) :
    List (String × α) :=
  units.filterMap fun u => (okEntry u.2).map fun r => (u.1, r)

/-- The `errors` map built by the collection loop over the completed
units (`api/rates.py` lines 83-87). -/
def collectErr {α : Type} (units : List (String × FutureOutcome α)) :
    List (String × String) :=
  units.filterMap fun u => (errEntry u.2).map fun m => (u.1, m)

/-- The effective output of `handler.do_POST` in `api/rates.py`: if any
unit is still unfinished when the 9-second deadline fires,
`as_completed` raises `TimeoutError("N (of M) futures unfinished")` at
the `for` statement — outside the inner `try` — so the outer handler
returns a 500 error response and both partially-built maps are
discarded.  Otherwise the success response carries the two maps. -/
def collectRates {α : Type} (units : List (String × FutureOutcome α)) :
    Except String (List (String × α) × List (String × String)) :=
  if units.any (fun u => isHang u.2) then
    .error (toString (units.countP fun u => isHang u.2) ++ " (of " ++
      toString units.length ++ ") futures unfinished")
  else
    .ok (collectOk units, collectErr units)

/-- The providers submitted to the pool, in submission order
(`api/rates.py` lines 45-75): one unit per provider whose API-key
environment variable is set to a non-empty string. -/
def configuredProviders (env : String → Option String) : List String :=
  (if envTruthy (env "SHIPPO_API_KEY") then ["shippo"] else []) ++
  (if envTruthy (env "EASYPOST_API_KEY") then ["easypost"] else []) ++
  (if envTruthy (env "SHIPENGINE_API_KEY") then ["shipengine"] else []) ++
  (if envTruthy (env "EASYSHIP_API_KEY") then ["easyship"] else [])

/-- The fan-out rate lookup of `api/rates.py`: submit one unit per
configured provider, then collect.  `outcome` abstracts the per-provider
worker behaviour. -/
def ratesFanout {α : Type} (env : String → Option String)
    (outcome : String → FutureOutcome α) :
    Except String (List (String × α) × List (String × String)) :=
  collectRates ((configuredProviders env).map fun p => (p, outcome p))

/-- Key membership in a map built by filtering per-provider entries out
of one unit per provider: the key is a submitted provider whose outcome
produces an entry. -/
theorem mem_keys_filterMap {α β : Type} (g : FutureOutcome α → Option β)
    (f : String → FutureOutcome α) (l : List String) (p : String) :
    p ∈ ((l.map fun q => (q, f q)).filterMap
        fun u => (g u.2).map fun b => (u.1, b)).map Prod.fst ↔
      p ∈ l ∧ (g (f p)).isSome := by
  induction l with
  | nil => simp
  | cons a l ih =>
    by_cases hpa : p = a
    · subst hpa
      cases hga : g (f p) <;>
        simp [List.filterMap_cons, hga, ih, Option.isSome_iff_exists]
    · cases hga : g (f a) <;>
        simp [List.filterMap_cons, hga, ih, hpa, Option.isSome_iff_exists]

theorem mem_collectOk_keys {α : Type} (f : String → FutureOutcome α)
    (l : List String) (p : String) :
    p ∈ (collectOk (l.map fun q => (q, f q))).map Prod.fst ↔
      p ∈ l ∧ (okEntry (f p)).isSome :=
  mem_keys_filterMap okEntry f l p

theorem mem_collectErr_keys {α : Type} (f : String → FutureOutcome α)
    (l : List String) (p : String) :
    p ∈ (collectErr (l.map fun q => (q, f q))).map Prod.fst ↔
      p ∈ l ∧ (errEntry (f p)).isSome :=
  mem_keys_filterMap errEntry f l p

/-- An environment with only the Shippo provider configured, used to
evaluate the coordinator model at concrete inputs. -/
def envShippoOnly : String → Option String :=
  fun k => if k = "SHIPPO_API_KEY" then some "shippo_test_key" else none

/-- C1: whenever the fan-out rate lookup produces its success response,
the two output maps partition the set of submitted (configured)
providers exactly: every submitted provider is a key of exactly one of
`results` and `errors`, and a provider not submitted is a key of
neither. -/
theorem c1_rates_partition {α : Type} (env : String → Option String)
    (outcome : String → FutureOutcome α)
    (res : List (String × α)) (errs : List (String × String))
    (h : ratesFanout env outcome = .ok (res, errs)) (p : String) :
    (p ∈ configuredProviders env →
      (p ∈ res.map Prod.fst ∧ p ∉ errs.map Prod.fst) ∨
      (p ∉ res.map Prod.fst ∧ p ∈ errs.map Prod.fst)) ∧
    (p ∉ configuredProviders env →
      p ∉ res.map Prod.fst ∧ p ∉ errs.map Prod.fst) := by
  unfold ratesFanout collectRates at h
  by_cases hh : ((configuredProviders env).map fun p => (p, outcome p)).any
      (fun u => isHang u.2)
  · rw [if_pos hh] at h
    exact absurd h (by simp)
  · rw [if_neg hh] at h
    injection h with h'
    have hres : collectOk ((configuredProviders env).map
        fun p => (p, outcome p)) = res := congrArg Prod.fst h'
    have herr : collectErr ((configuredProviders env).map
        fun p => (p, outcome p)) = errs := congrArg Prod.snd h'
    subst hres herr
    constructor
    · intro hp
      have hnothang : ¬ isHang (outcome p) = true := by
        intro hcon
        have : ((configuredProviders env).map fun q => (q, outcome q)).any
            (fun u => isHang u.2) = true := by
          rw [List.any_eq_true]
          exact ⟨(p, outcome p), List.mem_map_of_mem _ hp, hcon⟩
        exact hh this
      rw [mem_collectOk_keys, mem_collectErr_keys]
      cases ho : outcome p with
      | ok r => exact Or.inl ⟨⟨hp, by simp [okEntry, ho]⟩,
          by simp [errEntry, ho]⟩
      | raisedTimeoutError m => exact Or.inr ⟨by simp [okEntry, ho],
          ⟨hp, by simp [errEntry, ho]⟩⟩
      | exc m => exact Or.inr ⟨by simp [okEntry, ho],
          ⟨hp, by simp [errEntry, ho]⟩⟩
      | hang => exact absurd (by simp [isHang, ho]) hnothang
    · intro hp
      rw [mem_collectOk_keys, mem_collectErr_keys]
      exact ⟨fun hc => hp hc.1, fun hc => hp hc.1⟩

/-- C1 witness: with only `SHIPPO_API_KEY` configured and a worker that
returns a payload, the partition theorem applies and puts `"shippo"` in
the results map and not in the errors map. -/
theorem c1_rates_partition_witness :
    ratesFanout envShippoOnly (fun _ => FutureOutcome.ok (0 : Nat)) =
      .ok ([("shippo", 0)], []) ∧
    (("shippo" ∈ ([("shippo", (0 : Nat))] : List (String × Nat)).map Prod.fst ∧
        "shippo" ∉ ([] : List (String × String)).map Prod.fst) ∨
      ("shippo" ∉ ([("shippo", (0 : Nat))] : List (String × Nat)).map Prod.fst ∧
        "shippo" ∈ ([] : List (String × String)).map Prod.fst)) := by
  have h := c1_rates_partition envShippoOnly
    (fun _ => FutureOutcome.ok (0 : Nat)) [("shippo", 0)] [] (by rfl) "shippo"
  exact ⟨by rfl, h.1 (by simp [configuredProviders, envShippoOnly, envTruthy])⟩

/-- C2: evaluating the coordinator at its failing input.  With one
configured provider whose unit of work does not finish within the
9-second deadline, `as_completed` raises `TimeoutError` outside the
inner `try`, so the whole request fails with a 500 error response — the
provider receives no `"Request timed out"` entry because no error map is
produced at all (the per-future `except TimeoutError` branch is
unreachable: `as_completed` yields only completed futures). -/
theorem c2_deadline_aborts_whole_request :
    ratesFanout envShippoOnly (fun _ => (FutureOutcome.hang : FutureOutcome Nat)) =
      .error "1 (of 1) futures unfinished" := by
  rfl

/-! ## Address validation adapters

Each adapter's `validate_address` is embedded with the provider
network/SDK call abstracted as an explicit outcome parameter
(`Except _ response`): `.error` is the call raising, `.ok` the parsed
provider response. -/

/-- The `validation_results` part of a Shippo address response
(`lib/shippo_client.py` lines 180-181); `messages` holds the extracted
message texts. -/
structure ShippoValidationResults where
  is_valid : Bool
  messages : List String
deriving Repr, DecidableEq

/-- A Shippo `addresses.create` response as read by `validate_address`
(`lib/shippo_client.py` lines 178-202): validation results plus the
normalized address fields the SDK always carries on the response. -/
structure ShippoAddressResponse where
  validation_results : ShippoValidationResults
  street1 : String
  street2 : Option String
  city : String
  state : String
  zip : String
  country : String
deriving Repr, DecidableEq

/-- The success path of `ShippoClient.validate_address`
(`lib/shippo_client.py` lines 180-207): the validated address is
attached only when `is_valid` is true. -/
def shippoValidateResult (address : Address)
    (validated : ShippoAddressResponse) : ValidationResult :=
  let is_valid := validated.validation_results.is_valid
  let result : ValidationResult :=
    { is_valid := is_valid,
      messages := validated.validation_results.messages,
      original_address := address }
  if is_valid then
    let va : Address :=
      { name := address.name,
        street1 := validated.street1,
        street2 := validated.street2,
        city := validated.city,
        state := validated.state,
        zip := validated.zip,
        country := validated.country,
        phone := address.phone,
        email := address.email,
        is_residential := address.is_residential }
    { result with validated_address := some va }
  else result

/-- `ShippoClient.validate_address` (`lib/shippo_client.py` lines
162-207).  The method has no `try`/`except`: an exception raised by the
SDK call propagates to the caller unchanged. -/
def shippoValidate (address : Address)
    (call : Except String ShippoAddressResponse) :
    Except String ValidationResult :=
  match call with
  | .error e => .error e
  | .ok v => .ok (shippoValidateResult address v)

/-- The `delivery` verification of an EasyPost response
(`lib/easypost_client.py` lines 166-170); `errors` holds the extracted
error message texts. -/
structure EPDeliveryVerification where
  success : Bool
  errors : List String
deriving Repr, DecidableEq

/-- An EasyPost `create_and_verify` response as read by
`validate_address` (`lib/easypost_client.py` lines 159-191). -/
structure EPAddressResponse where
  delivery : Option EPDeliveryVerification
  street1 : String
  street2 : Option String
  city : String
  state : String
  zip : String
  country : String
  residential : Option Bool
deriving Repr, DecidableEq

/-- The success path of `EasyPostClient.validate_address`
(`lib/easypost_client.py` lines 159-194).  The guard
`if is_valid or validated:` always holds here because `validated` is the
non-`None` response object, so the normalized address is attached
regardless of validity. -/
def easypostValidateResult (address : Address)
    (validated : EPAddressResponse) : ValidationResult :=
  let is_valid := match validated.delivery with
    | some d => d.success
    | none => false
  let messages := match validated.delivery with
    | some d => d.errors
    | none => []
  { is_valid := is_valid,
    messages := messages,
    original_address := address,
    validated_address := some
      { name := address.name,
        street1 := validated.street1,
        street2 := some (pyOr validated.street2 ""),
        city := validated.city,
        state := validated.state,
        zip := validated.zip,
        country := validated.country,
        phone := address.phone,
        email := address.email,
        is_residential := validated.residential.getD true } }

/-- `EasyPostClient.validate_address` (`lib/easypost_client.py` lines
143-204).  The whole body is wrapped in `try`/`except Exception`: a
failed call is degraded to `is_valid=False` with the exception text as
the sole message, never re-raised. -/
def easypostValidate (address : Address)
    (call : Except String EPAddressResponse) : ValidationResult :=
  match call with
  | .ok v => easypostValidateResult address v
  | .error e =>
    { is_valid := false,
      messages := [e],
      original_address := address }

/-- How a ShipEngine call can fail (`lib/shipengine_client.py`): a
`requests` exception, or a non-200 status turned into a generic
exception at the status check. -/
inductive SEFailure where
  | requestException (msg : String)
  | statusError (code : Nat) (text : String)
deriving Repr, DecidableEq

/-- A `matched_address`/`normalized_address` record in a ShipEngine
validation response (`lib/shipengine_client.py` lines 299-311). -/
structure SEMatchedAddress where
  address_line1 : Option String
  address_line2 : Option String
  city_locality : Option String
  state_province : Option String
  postal_code : Option String
  country_code : Option String
  address_residential_indicator : Option String
deriving Repr, DecidableEq

/-- One record of a ShipEngine `/addresses/validate` response
(`lib/shipengine_client.py` lines 278-299); `messages` holds the raw
per-message texts (possibly empty strings). -/
structure SEValidationRecord where
  status : String
  messages : List String
  matched_address : Option SEMatchedAddress
  normalized_address : Option SEMatchedAddress
deriving Repr, DecidableEq

/-- `result_data.get("matched_address", result_data.get("normalized_address", {}))`
combined with the `if matched:` truthiness test
(`lib/shipengine_client.py` lines 299-300); a present-but-null value is
modelled as absent. -/
def seMatched (r : SEValidationRecord) : Option SEMatchedAddress :=
  match r.matched_address with
  | some m => some m
  | none => r.normalized_address

/-- The per-record path of `ShipEngineClient.validate_address`
(`lib/shipengine_client.py` lines 278-319): `is_valid` iff the status is
`verified` or `warning`; the validated address is attached only on those
statuses and only when a matched/normalized address is present. -/
def seValidateRecord (address : Address) (r : SEValidationRecord) :
    ValidationResult :=
  let is_valid := r.status == "verified" || r.status == "warning"
  let messages := r.messages.filter fun m => m != ""
  let result : ValidationResult :=
    { is_valid := is_valid,
      messages := messages,
      original_address := address }
  if r.status == "verified" || r.status == "warning" then
    match seMatched r with
    | some matched =>
      let va : Address :=
        { name := address.name,
          street1 := matched.address_line1.getD address.street1,
          street2 := some (matched.address_line2.getD ""),
          city := matched.city_locality.getD address.city,
          state := matched.state_province.getD address.state,
          zip := matched.postal_code.getD address.zip,
          country := matched.country_code.getD address.country,
          phone := address.phone,
          email := address.email,
          is_residential := matched.address_residential_indicator == some "yes" }
      { result with validated_address := some va }
    | none => result
  else result

/-- `ShipEngineClient.validate_address` (`lib/shipengine_client.py`
lines 230-326).  Both `except` clauses re-raise: a failed call
propagates as a new exception with a ShipEngine-prefixed message.  An
empty response list raises `"No validation result returned"`, which the
generic handler re-wraps. -/
def shipengineValidate (address : Address)
    (call : Except SEFailure (List SEValidationRecord)) :
    Except String ValidationResult :=
  match call with
  | .error (.requestException m) =>
    .error ("ShipEngine address validation error: " ++ m)
  | .error (.statusError code text) =>
    .error ("ShipEngine error: ShipEngine API returned status " ++
      toString code ++ ": " ++ text)
  | .ok [] => .error "ShipEngine error: No validation result returned"
  | .ok (r :: _) => .ok (seValidateRecord address r)

/-- A concrete address used to evaluate the adapters. -/
def addr0 : Address :=
  { name := "Jane Roe", street1 := "1 Main St", city := "Ontario",
    state := "CA", zip := "91761" }

/-- C3 counterexample: the Shippo adapter propagates a failed validation
call unchanged instead of returning a degraded `ValidationResult`. -/
theorem c3_shippo_propagates_counterexample :
    shippoValidate addr0 (.error "Connection reset by peer") =
      .error "Connection reset by peer" := by
  rfl

/-- C3 amended: only the EasyPost adapter degrades a failed validation
call to `is_valid=false` with the exception text as the sole message;
the Shippo adapter propagates the exception unchanged, and the
ShipEngine adapter re-raises it wrapped in a ShipEngine-prefixed
message. -/
theorem c3_validation_failure_policy (a : Address) (e : String) :
    easypostValidate a (.error e) =
      { is_valid := false, messages := [e], original_address := a } ∧
    shippoValidate a (.error e) = .error e ∧
    shipengineValidate a (.error (.requestException e)) =
      .error ("ShipEngine address validation error: " ++ e) :=
  ⟨rfl, rfl, rfl⟩

/-- C3 witness: the amended policy evaluated at a concrete address and
exception text. -/
theorem c3_validation_failure_policy_witness :
    easypostValidate addr0 (.error "boom") =
      { is_valid := false, messages := ["boom"], original_address := addr0 } :=
  (c3_validation_failure_policy addr0 "boom").1

/-- A Shippo response that is invalid yet carries the normalized address
fields (the SDK response always does). -/
def shippoRespInvalid : ShippoAddressResponse :=
  { validation_results :=
      { is_valid := false, messages := ["Address not found"] },
    street1 := "1 MAIN ST", street2 := none, city := "ONTARIO",
    state := "CA", zip := "91761-1234", country := "US" }

/-- C4 counterexample: on a Shippo response whose normalized address
fields are present but whose verdict is invalid, `validate_address`
leaves `validated_address` unset — not "regardless of validity". -/
theorem c4_shippo_no_suggestion_counterexample :
    (shippoValidateResult addr0 shippoRespInvalid).validated_address = none := by
  rfl

/-- C4 amended: EasyPost attaches `validated_address` on every
successful call regardless of validity; Shippo attaches it exactly when
`is_valid` is true; ShipEngine attaches it exactly when the status is
verified/warning (its `is_valid`) and a matched/normalized address is
present. -/
theorem c4_validated_address_policy :
    (∀ (a : Address) (v : EPAddressResponse),
      ((easypostValidate a (.ok v)).validated_address).isSome = true) ∧
    (∀ (a : Address) (v : ShippoAddressResponse),
      ((shippoValidateResult a v).validated_address).isSome =
        v.validation_results.is_valid) ∧
    (∀ (a : Address) (r : SEValidationRecord),
      ((seValidateRecord a r).validated_address).isSome =
        ((r.status == "verified" || r.status == "warning") &&
          (seMatched r).isSome)) := by
  refine ⟨fun a v => rfl, fun a v => ?_, fun a r => ?_⟩
  · unfold shippoValidateResult
    cases hv : v.validation_results.is_valid <;> simp [hv]
  · unfold seValidateRecord
    cases h1 : (r.status == "verified" || r.status == "warning") <;>
      cases h2 : seMatched r <;> simp [h1, h2]

/-! ## ShipEngine carrier-id cache and `get_rates`
(`lib/shipengine_client.py` lines 16-68 and 89-175) -/

/-- The mutable state of a `ShipEngineClient` instance: the API key and
the `_carrier_ids` cache, `None` until a successful fetch
(`lib/shipengine_client.py` lines 16-36). -/
structure SEClientState where
  api_key : String
  carrier_ids : Option (List String)
deriving Repr, DecidableEq

/-- Outcome of one `GET /v1/carriers` network call: a parsed carrier
list (each record's optional `carrier_id` field), a non-200 status, or a
raised exception. -/
inductive SEFetchOutcome where
  | ok (carriers : List (Option String))
  | httpError (code : Nat)
  | exc (msg : String)
deriving Repr, DecidableEq

/-- `[c["carrier_id"] for c in carriers if c.get("carrier_id")]`
(`lib/shipengine_client.py` line 61): keep ids that are present and
non-empty. -/
def seCarrierIdsFrom (carriers : List (Option String)) : List String :=
  carriers.filterMap fun c =>
    match c with
    | some s => if s = "" then none else some s
    | none => none

/-- `ShipEngineClient._get_carrier_ids` (`lib/shipengine_client.py`
lines 38-68).  Returns the id list, the state after the call, and
whether a network fetch was performed.  A cached list short-circuits; a
successful fetch caches its result (even an empty list); a non-200
status or an exception returns `[]` *without* caching. -/
def seGetCarrierIds (st : SEClientState) (fetch : SEFetchOutcome) :
    List String × SEClientState × Bool :=
  match st.carrier_ids with
  | some ids => (ids, st, false)
  | none =>
    match fetch with
    | .ok carriers =>
      let ids := seCarrierIdsFrom carriers
      (ids, { st with carrier_ids := some ids }, true)
    | .httpError _ => ([], st, true)
    | .exc _ => ([], st, true)

/-- Observable outcome of one `ShipEngineClient.get_rates` call: its
result, the instance state afterwards, whether a carrier-list fetch was
performed, and whether the rate request (`POST /v1/rates`) was made. -/
structure SERatesTrace (α : Type) where
  result : Except String (List α)
  state : SEClientState
  fetchedCarriers : Bool
  madeRateRequest : Bool

/-- `ShipEngineClient.get_rates` (`lib/shipengine_client.py` lines
89-175), with the rate request's parsed outcome abstracted as
`rateCall`.  An empty carrier-id list returns an empty sequence (with a
logged warning) before any rate request; otherwise the rate request is
made and a failure is re-raised with a ShipEngine-prefixed message. -/
def seGetRates {α : Type} (st : SEClientState) (fetch : SEFetchOutcome)
    (rateCall : Except SEFailure (List α)) : SERatesTrace α :=
  match seGetCarrierIds st fetch with
  | (ids, st2, fetched) =>
  if ids.isEmpty then
    { result := .ok [], state := st2, fetchedCarriers := fetched,
      madeRateRequest := false }
  else
    match rateCall with
    | .ok rates =>
      { result := .ok rates, state := st2, fetchedCarriers := fetched,
        madeRateRequest := true }
    | .error (.requestException m) =>
      { result := .error ("ShipEngine API error: " ++ m), state := st2,
        fetchedCarriers := fetched, madeRateRequest := true }
    | .error (.statusError code text) =>
      { result := .error ("ShipEngine error: ShipEngine API returned status " ++
          toString code ++ ": " ++ text), state := st2,
        fetchedCarriers := fetched, madeRateRequest := true }

/-- A fresh ShipEngine client instance (cache not yet populated). -/
def seFreshState : SEClientState :=
  { api_key := "se_test_key", carrier_ids := none }

/-- C5 counterexample: on one adapter instance whose first carrier-list
fetch fails with a non-200 status, the empty result is not cached, so a
second `get_rates` call performs a second carrier-list fetch — the list
is not "fetched at most once per adapter instance". -/
theorem c5_refetch_counterexample :
    (seGetRates (α := Nat) seFreshState (.httpError 500) (.ok [])).fetchedCarriers
        = true ∧
    (seGetRates (α := Nat) seFreshState (.httpError 500) (.ok [])).state.carrier_ids
        = none ∧
    (seGetRates (α := Nat)
        (seGetRates (α := Nat) seFreshState (.httpError 500) (.ok [])).state
        (.httpError 500) (.ok [])).fetchedCarriers = true := by
  exact ⟨rfl, rfl, rfl⟩

/-- C5 amended: a *successful* carrier-list fetch happens at most once
per instance — it caches its result (even an empty list) and any later
call returns the cache without fetching; a failed fetch returns `[]`
without caching (so a later call fetches again); and whenever the
carrier-id list comes back empty, `get_rates` returns an empty sequence
without making a rate request and without raising. -/
theorem c5_carrier_cache_policy :
    (∀ (st : SEClientState) (ids : List String) (f : SEFetchOutcome),
      st.carrier_ids = some ids → seGetCarrierIds st f = (ids, st, false)) ∧
    (∀ (st : SEClientState) (carriers : List (Option String)),
      st.carrier_ids = none →
        (seGetCarrierIds st (.ok carriers)).2.1.carrier_ids =
          some (seCarrierIdsFrom carriers)) ∧
    (∀ (α : Type) (st : SEClientState) (f : SEFetchOutcome)
        (rc : Except SEFailure (List α)),
      (seGetCarrierIds st f).1 = [] →
        (seGetRates st f rc).result = .ok [] ∧
        (seGetRates st f rc).madeRateRequest = false) := by
  refine ⟨fun st ids f h => ?_, fun st carriers h => ?_, fun α st f rc h => ?_⟩
  · unfold seGetCarrierIds
    rw [h]
  · unfold seGetCarrierIds
    rw [h]
  · rcases hse : seGetCarrierIds st f with ⟨ids, st2, fetched⟩
    rw [hse] at h
    simp only at h
    subst h
    unfold seGetRates
    rw [hse]
    exact ⟨rfl, rfl⟩

/-- C5 witness: the amended cache policy evaluated on a concrete
instance — a cached id list is returned without fetching, a successful
fetch populates the cache, and an empty id list short-circuits
`get_rates`. -/
theorem c5_carrier_cache_policy_witness :
    seGetCarrierIds { api_key := "k", carrier_ids := some ["c1"] }
        (.httpError 500) =
      (["c1"], { api_key := "k", carrier_ids := some ["c1"] }, false) ∧
    (seGetCarrierIds seFreshState (.ok [])).2.1.carrier_ids = some [] ∧
    (seGetRates (α := Nat) seFreshState (.ok []) (.ok [7])).result = .ok [] ∧
    (seGetRates (α := Nat) seFreshState (.ok []) (.ok [7])).madeRateRequest
      = false := by
  refine ⟨?_, ?_, ?_, ?_⟩
  · exact c5_carrier_cache_policy.1 _ ["c1"] _ (by rfl)
  · exact c5_carrier_cache_policy.2.1 seFreshState [] (by rfl)
  · exact (c5_carrier_cache_policy.2.2 Nat seFreshState (.ok []) (.ok [7])
      (by rfl)).1
  · exact (c5_carrier_cache_policy.2.2 Nat seFreshState (.ok []) (.ok [7])
      (by rfl)).2

/-! ## Easyship adapter (`lib/easyship_client.py`) -/

/-- The provider-bound address payload built by
`EasyshipClient._address_to_dict` (`lib/easyship_client.py` lines
35-57); optional entries are `none` when the source field is absent or
empty (Python truthiness). -/
structure EasyshipAddrDict where
  line_1 : String
  city : String
  state : String
  postal_code : String
  country_alpha2 : String
  contact_name : String
  line_2 : Option String
  contact_phone : Option String
  contact_email : Option String
deriving Repr, DecidableEq

/-- A Python-truthy optional string: kept only when present and
non-empty (`if address.street2:` etc.). -/
def truthyOpt (v : Option String) : Option String :=
  match v with
  | some s => if s = "" then none else some s
  | none => none

/-- `EasyshipClient._address_to_dict` (`lib/easyship_client.py` lines
35-57).  Easyship has a 22-character limit on `contact_name`:
`address.name[:22] if len(address.name) > 22 else address.name`. -/
def easyshipAddressToDict (address : Address) : EasyshipAddrDict :=
  let contact_name :=
    if address.name.length > 22 then address.name.take 22 else address.name
  { line_1 := address.street1,
    city := address.city,
    state := address.state,
    postal_code := address.zip,
    country_alpha2 := address.country,
    contact_name := contact_name,
    line_2 := truthyOpt address.street2,
    contact_phone := truthyOpt address.phone,
    contact_email := truthyOpt address.email }

/-- C6: the Easyship provider-bound payload truncates a name longer
than 22 characters to exactly its first 22 characters and transmits a
name of length at most 22 unchanged. -/
theorem c6_easyship_name_truncation (address : Address) :
    (address.name.length > 22 →
      (easyshipAddressToDict address).contact_name = address.name.take 22) ∧
    (address.name.length ≤ 22 →
      (easyshipAddressToDict address).contact_name = address.name) := by
  constructor
  · intro h
    unfold easyshipAddressToDict
    simp [h]
  · intro h
    unfold easyshipAddressToDict
    simp [Nat.not_lt.mpr h]

/-- A concrete address whose name has 23 characters. -/
def addrLongName : Address :=
  { name := "Abcdefghijklmnopqrstuvw", street1 := "1 Main St",
    city := "Ontario", state := "CA", zip := "91761" }

/-- C6 witness: the truncation theorem evaluated at a 23-character
name. -/
theorem c6_easyship_name_truncation_witness :
    addrLongName.name.length > 22 ∧
    (easyshipAddressToDict addrLongName).contact_name =
      addrLongName.name.take 22 :=
  ⟨by decide, (c6_easyship_name_truncation addrLongName).1 (by decide)⟩

/-- Python `sep in s` substring containment (for a non-empty separator),
computed structurally over the character list. -/
def pyContainsAux (sep : List Char) : List Char → Bool
  | [] => sep.isEmpty
  | c :: rest => sep.isPrefixOf (c :: rest) || pyContainsAux sep rest

/-- Python `sep in s` on strings. -/
def pyContains (sep s : String) : Bool :=
  pyContainsAux sep.toList s.toList

/-- Python `s.split(sep)` over character lists, fuelled so that the
recursion is structural: at each step either one character is consumed
or a non-empty separator occurrence is consumed.  `fuel ≥ s.length`
makes the fuel bound irrelevant. -/
def pySplitAux (sep : List Char) : Nat → List Char → List (List Char)
  | _, [] => [[]]
  | 0, s => [s]
  | fuel + 1, c :: rest =>
    if sep.isPrefixOf (c :: rest) && !sep.isEmpty then
      [] :: pySplitAux sep fuel ((c :: rest).drop sep.length)
    else
      match pySplitAux sep fuel rest with
      | [] => [[c]]
      | part :: parts => (c :: part) :: parts

/-- Python `s.split(sep)` for a non-empty separator: non-overlapping
occurrences, scanned left to right; always at least one part. -/
def pySplit (sep s : String) : List String :=
  (pySplitAux sep.toList s.toList.length s.toList).map fun cs =>
    String.mk cs

/-- Python `s.strip()`: drop leading and trailing whitespace. -/
def pyStrip (s : String) : String :=
  String.mk (((s.toList.dropWhile Char.isWhitespace).reverse.dropWhile
    Char.isWhitespace).reverse)

/-- Python `s.startswith(pre)`. -/
def pyStartsWith (pre s : String) : Bool :=
  pre.toList.isPrefixOf s.toList

/-- The carrier-name derivation in `EasyshipClient.get_rates`
(`lib/easyship_client.py` lines 122-136): when `courier_name` is empty
and the service description is non-empty, take the text before the
first `" - "` stripped of surrounding whitespace
(`service_name.split(" - ")[0].strip()`), else `"FedEx"` when the
description starts with that brand prefix, else `"Unknown"`. -/
def easyshipCourierName (courierName serviceName : String) : String :=
  if courierName = "" ∧ serviceName ≠ "" then
    if pyContains " - " serviceName then
      pyStrip ((pySplit " - " serviceName).headD "")
    else if pyStartsWith "FedEx" serviceName then "FedEx"
    else "Unknown"
  else if courierName = "" then "Unknown"
  else courierName

/-- The text before the first `" - "` separator, as the claim words it
(no whitespace stripping). -/
def textBeforeSep (s : String) : String :=
  (pySplit " - " s).headD ""

/-- C7 counterexample: with an empty courier name and service
description `"USPS  - Priority Mail"` (two spaces before the dash), the
code derives `"USPS"` — the text before the first `" - "` is `"USPS "`
with a trailing space, which the code additionally strips. -/
theorem c7_strip_counterexample :
    easyshipCourierName "" "USPS  - Priority Mail" = "USPS" ∧
    textBeforeSep "USPS  - Priority Mail" = "USPS " := by
  exact ⟨by decide, by decide⟩

/-- C7 amended: for an empty courier-name field the derived carrier
name is the text before the first `" - "` *stripped of surrounding
whitespace* when that separator is present, else `"FedEx"` when the
description starts with that brand prefix, else `"Unknown"`. -/
theorem c7_courier_name_derivation (serviceName : String) :
    easyshipCourierName "" serviceName =
      (if pyContains " - " serviceName then
        pyStrip (textBeforeSep serviceName)
      else if pyStartsWith "FedEx" serviceName then "FedEx"
      else "Unknown") := by
  unfold easyshipCourierName textBeforeSep
  by_cases h : serviceName = ""
  · subst h
    decide
  · simp [h]

/-- C7 sanity instance: the spec's own example — service description
`"USPS - Priority Mail"` derives carrier `"USPS"`. -/
theorem c7_usps_example :
    easyshipCourierName "" "USPS - Priority Mail" = "USPS" := by
  decide

/-! ## Adapter constructors (C8) -/

/-- Python `s.lower()` over the character list. -/
def pyLower (s : String) : String :=
  String.mk (s.toList.map Char.toLower)

/-- Configuration held by a constructed `ShippoClient`
(`lib/shippo_client.py` lines 15-33). -/
structure ShippoClientCfg where
  api_key : String
  test_mode : Bool
deriving Repr, DecidableEq

/-- Configuration held by a constructed `EasyPostClient`
(`lib/easypost_client.py` lines 14-32). -/
structure EPClientCfg where
  api_key : String
  test_mode : Bool
deriving Repr, DecidableEq

/-- Configuration held by a constructed `EasyshipClient`
(`lib/easyship_client.py` lines 16-33). -/
structure EasyshipClientCfg where
  api_key : String
deriving Repr, DecidableEq

/-- `ShippoClient.__init__` (`lib/shippo_client.py` lines 15-33):
`api_key or os.getenv("SHIPPO_API_KEY", "")`, then an immediate
`ValueError` when the effective key is empty. -/
def shippoInit (apiKey : Option String) (testMode : Option Bool)
    (env : String → Option String) : Except String ShippoClientCfg :=
  if pyOr apiKey ((env "SHIPPO_API_KEY").getD "") = "" then
    .error "Shippo API key not configured. Set SHIPPO_API_KEY in .env file"
  else
    .ok { api_key := pyOr apiKey ((env "SHIPPO_API_KEY").getD ""),
          test_mode := testMode.getD
            (pyLower ((env "SHIPPO_TEST_MODE").getD "true") == "true") }

/-- Modelled from the spec: the shared configuration module
`lib/config.py` (imported by `easypost_client.py` as
`from .config import config`) is not among the sources; spec §6 says
each provider's API key is "supplied via environment configuration", so
`config.api_key` is modelled as the `EASYPOST_API_KEY` environment
variable, empty when unset. -/
def easypostConfigApiKey (env : String → Option String) : String :=
  (env "EASYPOST_API_KEY").getD ""

/-- Modelled from the spec: `config.test_mode` of the missing
`lib/config.py`, modelled as the `EASYPOST_TEST_MODE` flag defaulting to
test mode (the same convention `api/rates.py` line 135 uses). -/
def easypostConfigTestMode (env : String → Option String) : Bool :=
  pyLower ((env "EASYPOST_TEST_MODE").getD "true") == "true"

/-- `EasyPostClient.__init__` (`lib/easypost_client.py` lines 14-32):
`api_key or config.api_key`, then an immediate `ValueError` when the
effective key is empty. -/
def easypostInit (apiKey : Option String) (testMode : Option Bool)
    (env : String → Option String) : Except String EPClientCfg :=
  if pyOr apiKey (easypostConfigApiKey env) = "" then
    .error "EasyPost API key not configured. Set EASYPOST_API_KEY in .env file"
  else
    .ok { api_key := pyOr apiKey (easypostConfigApiKey env),
          test_mode := testMode.getD (easypostConfigTestMode env) }

/-- `ShipEngineClient.__init__` (`lib/shipengine_client.py` lines
16-36): `api_key or os.getenv("SHIPENGINE_API_KEY", "")`, an immediate
`ValueError` on an empty key, and `_carrier_ids` initialized to
`None`. -/
def shipengineInit (apiKey : Option String)
    (env : String → Option String) : Except String SEClientState :=
  if pyOr apiKey ((env "SHIPENGINE_API_KEY").getD "") = "" then
    .error "ShipEngine API key not configured. Set SHIPENGINE_API_KEY in .env file"
  else
    .ok { api_key := pyOr apiKey ((env "SHIPENGINE_API_KEY").getD ""),
          carrier_ids := none }

/-- `EasyshipClient.__init__` (`lib/easyship_client.py` lines 16-33):
`api_key or os.getenv("EASYSHIP_API_KEY", "")`, then an immediate
`ValueError` when the effective key is empty. -/
def easyshipInit (apiKey : Option String)
    (env : String → Option String) : Except String EasyshipClientCfg :=
  if pyOr apiKey ((env "EASYSHIP_API_KEY").getD "") = "" then
    .error "Easyship API key not configured. Set EASYSHIP_API_KEY in .env file"
  else
    .ok { api_key := pyOr apiKey ((env "EASYSHIP_API_KEY").getD "") }

/-- `pyOr` of an absent-or-empty left operand yields the default. -/
theorem pyOr_of_empty (v : Option String)
    (h : v = none ∨ v = some "") (d : String) : pyOr v d = d := by
  rcases h with h | h <;> subst h <;> simp [pyOr]

/-- C8: for every adapter, constructing it with no API key — an absent
or empty explicit argument and an unset-or-empty environment/config
fallback — fails immediately with the adapter's configuration error,
and a construction that succeeds never holds an empty key. -/
theorem c8_constructor_requires_key (env : String → Option String)
    (apiKey : Option String) (testMode : Option Bool)
    (hk : apiKey = none ∨ apiKey = some "") :
    ((env "SHIPPO_API_KEY").getD "" = "" →
      shippoInit apiKey testMode env =
        .error "Shippo API key not configured. Set SHIPPO_API_KEY in .env file") ∧
    (easypostConfigApiKey env = "" →
      easypostInit apiKey testMode env =
        .error "EasyPost API key not configured. Set EASYPOST_API_KEY in .env file") ∧
    ((env "SHIPENGINE_API_KEY").getD "" = "" →
      shipengineInit apiKey env =
        .error "ShipEngine API key not configured. Set SHIPENGINE_API_KEY in .env file") ∧
    ((env "EASYSHIP_API_KEY").getD "" = "" →
      easyshipInit apiKey env =
        .error "Easyship API key not configured. Set EASYSHIP_API_KEY in .env file") ∧
    (∀ cfg, shippoInit apiKey testMode env = .ok cfg → cfg.api_key ≠ "") ∧
    (∀ cfg, easypostInit apiKey testMode env = .ok cfg → cfg.api_key ≠ "") ∧
    (∀ cfg, shipengineInit apiKey env = .ok cfg → cfg.api_key ≠ "") ∧
    (∀ cfg, easyshipInit apiKey env = .ok cfg → cfg.api_key ≠ "") := by
  refine ⟨fun h => ?_, fun h => ?_, fun h => ?_, fun h => ?_,
    fun cfg hok => ?_, fun cfg hok => ?_, fun cfg hok => ?_,
    fun cfg hok => ?_⟩
  · unfold shippoInit
    rw [pyOr_of_empty apiKey hk, h]
    rfl
  · unfold easypostInit
    rw [pyOr_of_empty apiKey hk, h]
    rfl
  · unfold shipengineInit
    rw [pyOr_of_empty apiKey hk, h]
    rfl
  · unfold easyshipInit
    rw [pyOr_of_empty apiKey hk, h]
    rfl
  · unfold shippoInit at hok
    by_cases h0 : pyOr apiKey ((env "SHIPPO_API_KEY").getD "") = ""
    · rw [if_pos h0] at hok
      exact Except.noConfusion hok
    · rw [if_neg h0] at hok
      injection hok with h'
      subst h'
      exact h0
  · unfold easypostInit at hok
    by_cases h0 : pyOr apiKey (easypostConfigApiKey env) = ""
    · rw [if_pos h0] at hok
      exact Except.noConfusion hok
    · rw [if_neg h0] at hok
      injection hok with h'
      subst h'
      exact h0
  · unfold shipengineInit at hok
    by_cases h0 : pyOr apiKey ((env "SHIPENGINE_API_KEY").getD "") = ""
    · rw [if_pos h0] at hok
      exact Except.noConfusion hok
    · rw [if_neg h0] at hok
      injection hok with h'
      subst h'
      exact h0
  · unfold easyshipInit at hok
    by_cases h0 : pyOr apiKey ((env "EASYSHIP_API_KEY").getD "") = ""
    · rw [if_pos h0] at hok
      exact Except.noConfusion hok
    · rw [if_neg h0] at hok
      injection hok with h'
      subst h'
      exact h0

/-- C8 witness: with an empty environment and no explicit key, all four
constructors fail immediately with their configuration errors. -/
theorem c8_constructor_requires_key_witness :
    shippoInit none none (fun _ => none) =
      .error "Shippo API key not configured. Set SHIPPO_API_KEY in .env file" ∧
    easypostInit none none (fun _ => none) =
      .error "EasyPost API key not configured. Set EASYPOST_API_KEY in .env file" ∧
    shipengineInit none (fun _ => none) =
      .error "ShipEngine API key not configured. Set SHIPENGINE_API_KEY in .env file" ∧
    easyshipInit none (fun _ => none) =
      .error "Easyship API key not configured. Set EASYSHIP_API_KEY in .env file" := by
  have h := c8_constructor_requires_key (fun _ => none) none none (Or.inl rfl)
  exact ⟨h.1 rfl, h.2.1 rfl, h.2.2.1 rfl, h.2.2.2.1 rfl⟩

/-! ## Validate endpoint provider selection
(`api/validate.py`, `handler.do_POST` lines 29-48) -/

/-- Provider resolution and dispatch of the validate endpoint
(`api/validate.py` lines 33-48): `'auto'` resolves to `'shippo'` when
`SHIPPO_API_KEY` is configured, else `'easypost'` when
`EASYPOST_API_KEY` is configured, else raises
`"No validation provider configured"`; the dispatch then accepts exactly
`'shippo'` and `'easypost'` and raises an unknown-provider error for
anything else.  Returns the provider that performs the validation. -/
def validateChooseProvider (env : String → Option String)
    (provider : String) : Except String String :=
  let resolved : Except String String :=
    if provider = "auto" then
      if envTruthy (env "SHIPPO_API_KEY") then .ok "shippo"
      else if envTruthy (env "EASYPOST_API_KEY") then .ok "easypost"
      else .error "No validation provider configured"
    else .ok provider
  match resolved with
  | .error e => .error e
  | .ok q =>
    if q = "shippo" then .ok "shippo"
    else if q = "easypost" then .ok "easypost"
    else .error ("Unknown provider: " ++ q)

/-- C9: the validate endpoint resolves `'auto'` deterministically by
preference order — `'shippo'` when `SHIPPO_API_KEY` is configured
(set to a non-empty value), else `'easypost'` when `EASYPOST_API_KEY`
is, else the error `"No validation provider configured"` — and any
provider name other than `'shippo'`, `'easypost'` or `'auto'` fails
with an unknown-provider error. -/
theorem c9_validate_provider_resolution (env : String → Option String)
    (provider : String) :
    (provider = "auto" → envTruthy (env "SHIPPO_API_KEY") = true →
      validateChooseProvider env provider = .ok "shippo") ∧
    (provider = "auto" → envTruthy (env "SHIPPO_API_KEY") = false →
      envTruthy (env "EASYPOST_API_KEY") = true →
      validateChooseProvider env provider = .ok "easypost") ∧
    (provider = "auto" → envTruthy (env "SHIPPO_API_KEY") = false →
      envTruthy (env "EASYPOST_API_KEY") = false →
      validateChooseProvider env provider =
        .error "No validation provider configured") ∧
    (provider ≠ "auto" → provider ≠ "shippo" → provider ≠ "easypost" →
      validateChooseProvider env provider =
        .error ("Unknown provider: " ++ provider)) := by
  refine ⟨fun ha h1 => ?_, fun ha h1 h2 => ?_, fun ha h1 h2 => ?_,
    fun ha h1 h2 => ?_⟩
  · subst ha
    simp [validateChooseProvider, h1]
  · subst ha
    simp [validateChooseProvider, h1, h2]
  · subst ha
    simp [validateChooseProvider, h1, h2]
  · simp [validateChooseProvider, ha, h1, h2]

/-- C9 witness: with an empty environment, `'auto'` fails with
`"No validation provider configured"`, and the unknown provider
`'fedex'` fails with the unknown-provider error. -/
theorem c9_validate_provider_resolution_witness :
    validateChooseProvider (fun _ => none) "auto" =
      .error "No validation provider configured" ∧
    validateChooseProvider (fun _ => none) "fedex" =
      .error "Unknown provider: fedex" := by
  constructor
  · exact (c9_validate_provider_resolution (fun _ => none) "auto").2.2.1
      rfl rfl rfl
  · exact (c9_validate_provider_resolution (fun _ => none) "fedex").2.2.2
      (by decide) (by decide) (by decide)

/-! ## Label-history store (`api/history.py`, `handler.do_POST`) -/

/-- The history update of `handler.do_POST` in `api/history.py` lines
88-92: `history.insert(0, label_record)` followed by
`history = history[:1000]`, which is then persisted. -/
def appendLabelHistory {α : Type} (history : List α) (record : α) :
    List α :=
  (record :: history).take 1000

/-- C10: after every successful POST the persisted history has at most
1000 records and its first element is the record just added. -/
theorem c10_history_bounded_most_recent_first {α : Type}
    (history : List α) (record : α) :
    (appendLabelHistory history record).length ≤ 1000 ∧
    (appendLabelHistory history record).head? = some record := by
  constructor
  · unfold appendLabelHistory
    rw [List.length_take]
    exact min_le_left _ _
  · unfold appendLabelHistory
    rw [show (1000 : Nat) = 999 + 1 from rfl, List.take_succ_cons]
    rfl

end ShippoFrontend
